import Mathlib

/-!
Verification of the manim-gpt iterative generate-validate-refine core.

This file gives a shallow embedding, in Lean 4, of the code under
`src/services/code_validator.py`, `src/services/iterative_workflow.py`,
`src/services/session_manager.py` and `src/services/session_updater.py`
of the manim-gpt repository, and proves (or refutes) the frozen claims
about that code.

Modelling conventions:
* Python strings are Lean `String`s; character-level work is done on
  `List Char` (`String.data`).
* Python's `str.strip()` is `pyStripChars` / `pyStrip` (removing the
  whitespace characters space, tab, newline, carriage return, vertical
  tab and form feed from both ends).
* The Python parser (`ast.parse`) and the external Manim subprocess are
  modelled as explicit outcome parameters (`ParseOutcome`,
  `DryRunOutcome`): the repository's code only branches on their
  results, which these datatypes enumerate.
* A raised-and-propagated `asyncio.CancelledError` is modelled as
  `Except.error ()`; a function that returns normally yields `Except.ok`.
* A Python call that passes a keyword argument absent from the callee's
  signature raises `TypeError` before the callee's body runs; the
  workflow runner is `Except`-valued so that this exception propagates
  out of the graph as it does in the source.
* `try/finally` cleanup is modelled by a wrapper that records, in a
  `cleanedUp` flag, that the `finally` block removing the scratch
  directory ran on the corresponding exit path.
-/

/-- Whitespace characters removed by Python's `str.strip()`. -/
def isPySpace (c : Char) : Bool :=
  c = ' ' || c = '\t' || c = '\n' || c = '\r' || c = '\x0b' || c = '\x0c'

/-- Python `str.strip()` on a list of characters: drop leading whitespace,
then drop trailing whitespace (implemented via `reverse`). -/
def pyStripChars (l : List Char) : List Char :=
  (((l.dropWhile isPySpace).reverse).dropWhile isPySpace).reverse

/-- Python `str.strip()` on a `String`. -/
def pyStrip (s : String) : String :=
  ⟨pyStripChars s.data⟩

/-- Contiguous-sublist (substring) test on character lists. -/
def containsSub (needle : List Char) : List Char → Bool
  | [] => needle.isEmpty
  | c :: t => needle.isPrefixOf (c :: t) || containsSub needle t

/-- Python's `needle in haystack` substring test. -/
def containsStr (needle hay : String) : Bool :=
  containsSub needle.data hay.data

/-- Python `s.split('\n')` on a list of characters.  Always returns at
least one (possibly empty) line. -/
def splitLines : List Char → List (List Char)
  | [] => [[]]
  | c :: cs =>
    if c = '\n' then [] :: splitLines cs
    else
      match splitLines cs with
      | [] => [[c]]
      | l :: ls => (c :: l) :: ls

/-- Python `'\n'.join(lines)` on lists of characters. -/
def joinLines : List (List Char) → List Char
  | [] => []
  | [l] => l
  | l :: ls => l ++ '\n' :: joinLines ls

/-- Python `'\n'.join(strings)`. -/
def joinNL (ls : List String) : String :=
  String.intercalate "\n" ls

/-- Embeds `ValidationResult.to_dict` / the verdict dictionaries of
`src/services/code_validator.py`: `is_valid`, ordered `errors`, ordered
`warnings`, optional `error_details`. -/
structure ValidationResult where
  is_valid : Bool
  errors : List String
  warnings : List String
  error_details : Option String
deriving Repr, DecidableEq

/-- Outcome of `ast.parse(code)` as branched on by
`validate_python_syntax` (code_validator.py lines 34-58): success, a
`SyntaxError` carrying `lineno` and `msg` (with `str(e)` as details), or
any other exception carrying `str(e)`. -/
inductive ParseOutcome where
  | success : ParseOutcome
  | parseErrorAt (lineno : Nat) (msg : String) (details : String) : ParseOutcome
  | otherError (msg : String) : ParseOutcome
deriving Repr, DecidableEq

/-- Embeds `validate_python_syntax` (code_validator.py lines 34-58),
parameterised by the outcome of `ast.parse` on the script. -/
def validate_py_parse : ParseOutcome → ValidationResult
  | .success => { is_valid := true, errors := [], warnings := [], error_details := none }
  | .parseErrorAt n m d =>
    { is_valid := false
      errors := ["Syntax Error at line " ++ toString n ++ ": " ++ m]
      warnings := []
      error_details := some d }
  | .otherError m =>
    { is_valid := false
      errors := ["Parse Error: " ++ m]
      warnings := []
      error_details := some m }

/-- Embeds `validate_manim_imports` (code_validator.py lines 61-77):
substring checks for `"from manim import"` / `"import manim"`; a miss is
only a warning and the stage is always valid. -/
def validate_manim_imports (code : String) : ValidationResult :=
  if !(containsStr "from manim import" code) && !(containsStr "import manim" code) then
    { is_valid := true, errors := [], warnings := ["Code may be missing Manim imports"],
      error_details := none }
  else
    { is_valid := true, errors := [], warnings := [], error_details := none }

/-- Embeds `validate_manim_structure` (code_validator.py lines 80-103):
substring checks (`in`) for `"class GeneratedScene"` and
`"def construct(self)"`, each miss a fatal error. -/
def validate_manim_structure (code : String) : ValidationResult :=
  if !(containsStr "class GeneratedScene" code) then
    { is_valid := false, errors := ["Code must contain a 'GeneratedScene' class"],
      warnings := [], error_details := none }
  else if !(containsStr "def construct(self)" code) then
    { is_valid := false, errors := ["GeneratedScene must have a 'construct' method"],
      warnings := [], error_details := none }
  else
    { is_valid := true, errors := [], warnings := [], error_details := none }

/-- Outcome of the external Manim dry-run subprocess as branched on by
`validate_manim_dry_run` (code_validator.py lines 106-274): the process
completed with an exit code and captured stdout/stderr lines; the
bounded wait timed out; the task was cancelled (`asyncio.CancelledError`);
or setting up / spawning raised some other exception with message
`str(e)`. -/
inductive DryRunOutcome where
  | completed (returncode : Int) (stdoutLines stderrLines : List String) : DryRunOutcome
  | timedOut : DryRunOutcome
  | cancelled : DryRunOutcome
  | spawnFailure (msg : String) : DryRunOutcome
deriving Repr, DecidableEq

/-- The `try`/`except` body of `validate_manim_dry_run`
(code_validator.py lines 132-249), before the `finally` block.
`Except.error ()` models the re-raised `asyncio.CancelledError`
(line 243); every other outcome returns a verdict:
* timeout (lines 206-211): invalid, one timeout-labelled error;
* cancellation (lines 237-243): a failed verdict is built but the
  exception is re-raised, so the caller sees the exception;
* other exception (lines 245-249): invalid, one "Validation error" entry;
* non-zero exit (lines 219-232): errors are the stripped stderr lines
  containing "Error"/"Exception"/"Traceback", or a generic fallback;
* zero exit (lines 233-235): valid, no errors. -/
def dryRunBody (o : DryRunOutcome) (timeoutSecs : Nat) : Except Unit ValidationResult :=
  match o with
  | .timedOut =>
    .ok { is_valid := false
          errors := ["Validation timeout after " ++ toString timeoutSecs ++ " seconds"]
          warnings := [], error_details := none }
  | .cancelled => .error ()
  | .spawnFailure m =>
    .ok { is_valid := false, errors := ["Validation error: " ++ m]
          warnings := [], error_details := some m }
  | .completed rc out err =>
    if rc ≠ 0 then
      let scanned := (err.filter
        (fun l => containsStr "Error" l || containsStr "Exception" l ||
                  containsStr "Traceback" l)).map pyStrip
      .ok { is_valid := false
            errors := if scanned = [] then ["Manim validation failed"] else scanned
            warnings := []
            error_details :=
              some ("STDOUT:\n" ++ joinNL out ++ "\n\nSTDERR:\n" ++ joinNL err) }
    else
      .ok { is_valid := true, errors := [], warnings := [], error_details := none }

/-- Return value of `validate_manim_dry_run`: the body's result (verdict
or propagated cancellation) together with whether the `finally` block
(lines 251-272) removed the scratch directory on this exit path. -/
structure DryRunReturn where
  result : Except Unit ValidationResult
  cleanedUp : Bool
deriving Repr

/-- The `finally` block of `validate_manim_dry_run` (lines 251-272) runs
on every exit path — normal return, exception, and cancellation — and
removes the scratch directory (`shutil.rmtree`, line 271). -/
def finallyCleanup (r : Except Unit ValidationResult) : DryRunReturn :=
  { result := r, cleanedUp := true }

/-- Embeds `validate_manim_dry_run` (code_validator.py lines 106-274):
the try-body followed by the `finally` cleanup. -/
def validate_manim_dry_run (o : DryRunOutcome) (timeoutSecs : Nat) : DryRunReturn :=
  finallyCleanup (dryRunBody o timeoutSecs)

/-- Render an optional list of detail sections as
`"\n\n".join(error_details) if error_details else None`
(code_validator.py lines 317, 340, 360). -/
def joinDetails (l : List String) : Option String :=
  if l = [] then none else some (String.intercalate "\n\n" l)

/-- Return value of `validate_code`, instrumented with which stages ran:
`ranStructure` (resp. `ranDryRun`) records whether the
structural-contract stage (resp. dry-run stage) was invoked on this
call, mirroring the short-circuiting control flow of
code_validator.py lines 302-370. -/
structure ValidateCodeReturn where
  result : Except Unit ValidationResult
  ranStructure : Bool
  ranDryRun : Bool
deriving Repr

/-- Embeds `validate_code` (code_validator.py lines 277-370),
parameterised by the parser outcome on `code` and the dry-run subprocess
outcome.  The stages run in source order (parse, imports, structure,
optional dry-run), accumulating errors/warnings/details and returning
early on the first failing fatal stage.  A cancellation raised by the
dry-run stage propagates (`Except.error`). -/
def validate_code (code : String) (dry_run : Bool)
    (parseO : ParseOutcome) (dryO : DryRunOutcome) : ValidateCodeReturn :=
  let synRes := validate_py_parse parseO
  let errs1 := synRes.errors
  let warns1 := synRes.warnings
  let details1 :=
    match synRes.error_details with
    | some d => ["Syntax Validation:\n" ++ d]
    | none => []
  if synRes.is_valid = false then
    { result := .ok { is_valid := false, errors := errs1, warnings := warns1,
                      error_details := joinDetails details1 }
      ranStructure := false, ranDryRun := false }
  else
    let impRes := validate_manim_imports code
    let warns2 := warns1 ++ impRes.warnings
    let structRes := validate_manim_structure code
    let errs2 := errs1 ++ structRes.errors
    let warns3 := warns2 ++ structRes.warnings
    if structRes.is_valid = false then
      { result := .ok { is_valid := false, errors := errs2, warnings := warns3,
                        error_details := joinDetails details1 }
        ranStructure := true, ranDryRun := false }
    else if dry_run then
      match (validate_manim_dry_run dryO 600).result with
      | .error e => { result := .error e, ranStructure := true, ranDryRun := true }
      | .ok drv =>
        let errs3 := errs2 ++ drv.errors
        let warns4 := warns3 ++ drv.warnings
        let details2 := details1 ++
          (match drv.error_details with
           | some d => ["Manim Dry-Run:\n" ++ d]
           | none => [])
        if drv.is_valid = false then
          { result := .ok { is_valid := false, errors := errs3, warnings := warns4,
                            error_details := joinDetails details2 }
            ranStructure := true, ranDryRun := true }
        else
          { result := .ok { is_valid := true, errors := errs3, warnings := warns4,
                            error_details := none }
            ranStructure := true, ranDryRun := true }
    else
      { result := .ok { is_valid := true, errors := errs2, warnings := warns3,
                        error_details := none }
        ranStructure := true, ranDryRun := false }

/-! ## Code-fence cleanup (iterative_workflow.py, generate_code_node) -/

/-- The code-fence markers skipped by the line filter of
`generate_code_node` (iterative_workflow.py line 164). -/
def fenceMarkers : List (List Char) :=
  ["```".data, "```python".data, "```py".data]

/-- Embeds the markdown cleanup of `generate_code_node`
(iterative_workflow.py lines 131 and 148-168) on a character list:
`content.strip()`, removal of a leading ` ```python `/` ``` ` marker and
of a trailing ` ``` ` marker (each followed by `strip()`), then dropping
every line whose stripped content is a fence marker, re-joining with
newlines and a final `strip()`. -/
def cleanupChars (raw : List Char) : List Char :=
  let g0 := pyStripChars raw
  let g1 :=
    if "```python".data.isPrefixOf g0 then pyStripChars (g0.drop 9)
    else if "```".data.isPrefixOf g0 then pyStripChars (g0.drop 3)
    else g0
  let g2 :=
    if "```".data.isSuffixOf g1 then pyStripChars (g1.take (g1.length - 3))
    else g1
  let kept := (splitLines g2).filter (fun l => !(fenceMarkers.contains (pyStripChars l)))
  pyStripChars (joinLines kept)

/-- The markdown/code-fence cleanup of `generate_code_node` on a
`String`. -/
def cleanupCode (s : String) : String :=
  ⟨cleanupChars s.data⟩

/-! ## Session / workflow data model (models/session.py) -/

/-- Embeds `IterationStatus` (models/session.py lines 10-17). -/
inductive IterationStatus where
  | generating | validating | refining | success | failed | max_iterations_reached
deriving Repr, DecidableEq

/-- Embeds `CodeIteration` (models/session.py lines 54-62), restricted to
the fields the claims are about; the wall-clock timestamp and the
generation/validation wall-time metrics are omitted (they carry no
information checkable in this embedding). -/
structure CodeIteration where
  iteration_number : Nat
  generated_code : String
  validation_result : Option ValidationResult
  status : IterationStatus
deriving Repr, DecidableEq

/-! ## Refinement loop (iterative_workflow.py) -/

/-- Embeds `WorkflowState` (iterative_workflow.py lines 22-39), restricted
to the fields the loop logic reads or writes (prompt/model/temperature/
token budget/messages/metrics are passed through untouched by the logic
the claims concern). -/
structure WorkflowState where
  current_iteration : Nat
  max_iterations : Nat
  iterations_history : List CodeIteration
  status : IterationStatus
  generated_code : Option String
  validation_result : Option ValidationResult
  error_message : Option String
deriving Repr, DecidableEq

/-- Embeds `generate_code_node` (iterative_workflow.py lines 42-179).
The LLM response text for this attempt is the parameter `raw` (the
`acompletion` call is external); the node stores the fence-cleaned code
and sets status `validating`. -/
def generate_code_node (raw : String) (s : WorkflowState) : WorkflowState :=
  { s with generated_code := some (cleanupCode raw), status := .validating }

/-- Exception raised out of the workflow: Python's `TypeError` (the only
exception the embedded loop itself can raise). -/
inductive PyExc where
  | typeError (msg : String) : PyExc
deriving Repr, DecidableEq

/-- The parameter names of `validate_code`'s signature
(code_validator.py lines 277-281): `code`, `dry_run`,
`progress_callback`, and nothing else (no `**kwargs`). -/
def validate_code_params : List String := ["code", "dry_run", "progress_callback"]

/-- The argument names of the call
`validate_code(code, dry_run=True, session_id=state["session_id"])`
at iterative_workflow.py line 195 (the positional `code` binds the
first parameter). -/
def validate_code_call_kwargs : List String := ["code", "dry_run", "session_id"]

/-- Embeds `validate_code_node` (iterative_workflow.py lines 182-227).
The node's body calls
`validate_code(code, dry_run=True, session_id=state["session_id"])`
(line 195).  Python binds keyword arguments against the callee's
signature before running its body, and `validate_code`'s signature has
no `session_id` parameter and no `**kwargs`, so the call raises
`TypeError: ... got an unexpected keyword argument 'session_id'` on
every invocation — modelled as the `Except.error` branch, taken before
any verdict exists.  The `Except.ok` branch carries the bookkeeping the
rest of the node's body would perform on a delivered verdict `verdict`
(append a `CodeIteration` numbered `current_iteration + 1` with status
`success`/`refining`, increment the counter); with the source's call it
is unreachable. -/
def validate_code_node (verdict : ValidationResult) (s : WorkflowState) :
    Except PyExc WorkflowState :=
  match validate_code_call_kwargs.find? (fun k => !(validate_code_params.contains k)) with
  | some k =>
    .error (.typeError ("validate_code() got an unexpected keyword argument '" ++ k ++ "'"))
  | none =>
    let iter : CodeIteration :=
      { iteration_number := s.current_iteration + 1
        generated_code := s.generated_code.getD ""
        validation_result := some verdict
        status := if verdict.is_valid then .success else .refining }
    .ok { s with
          validation_result := some verdict
          iterations_history := s.iterations_history ++ [iter]
          current_iteration := s.current_iteration + 1 }

/-- Embeds `decide_next_step` (iterative_workflow.py lines 230-255):
routes on `is_valid` first, then on `current_iteration >= max_iterations`.
Returns the routing string exactly as the source does.  (The source reads
`state["validation_result"]`, which is always set when this node runs;
the `getD` default covers the unreachable `None` case.) -/
def decide_next_step (s : WorkflowState) : String :=
  let validation := s.validation_result.getD
    { is_valid := false, errors := [], warnings := [], error_details := none }
  if validation.is_valid then "complete"
  else if s.current_iteration ≥ s.max_iterations then "max_iterations"
  else "refine"

/-- Embeds `complete_node` (iterative_workflow.py lines 258-268). -/
def complete_node (s : WorkflowState) : WorkflowState :=
  { s with status := .success, error_message := none }

/-- Embeds `max_iterations_node` (iterative_workflow.py lines 271-281). -/
def max_iterations_node (s : WorkflowState) : WorkflowState :=
  { s with status := .max_iterations_reached
           error_message := some "Maximum iterations reached. Code still has validation errors." }

/-- Embeds `refine_node` (iterative_workflow.py lines 284-294). -/
def refine_node (s : WorkflowState) : WorkflowState :=
  { s with status := .refining }

/-- The compiled LangGraph graph (`create_workflow`,
iterative_workflow.py lines 297-341) run from a state: one
generate→validate cycle, then the `decide_next_step` routing, looping
through `refine` until a terminal node.  The external outcomes per
attempt are the oracles `gen` (LLM response text) and `val` (the verdict
the validator would deliver), indexed by `current_iteration` at the
start of the attempt.  An exception raised in a node propagates out of
the graph and aborts the run (`Except.error`); since
`validate_code_node` raises `TypeError` on every invocation, this is
what every run does.  `fuel` bounds the recursion and is chosen large
enough by the caller. -/
def runWorkflowFuel (gen : Nat → String) (val : Nat → ValidationResult) :
    Nat → WorkflowState → Except PyExc WorkflowState
  | 0, s => .ok s
  | fuel + 1, s =>
    let s1 := generate_code_node (gen s.current_iteration) s
    match validate_code_node (val s1.current_iteration) s1 with
    | .error e => .error e
    | .ok s2 =>
      if decide_next_step s2 = "complete" then .ok (complete_node s2)
      else if decide_next_step s2 = "max_iterations" then .ok (max_iterations_node s2)
      else runWorkflowFuel gen val fuel (refine_node s2)

/-- Embeds the initial state built by `run_iterative_generation`
(iterative_workflow.py lines 374-390). -/
def initialWorkflowState (max_iterations : Nat) : WorkflowState :=
  { current_iteration := 0
    max_iterations := max_iterations
    iterations_history := []
    status := .generating
    generated_code := none
    validation_result := none
    error_message := none }

/-- Embeds `run_iterative_generation` (iterative_workflow.py lines
344-425): the compiled workflow executed from the initial state.
`Except.ok` would be a completed run's terminal state; `Except.error` is
an exception propagating out of the graph to the caller — with the
source's `session_id` keyword argument, the invariable outcome. -/
def run_iterative_generation (gen : Nat → String) (val : Nat → ValidationResult)
    (max_iterations : Nat) : Except PyExc WorkflowState :=
  runWorkflowFuel gen val (max_iterations + 1) (initialWorkflowState max_iterations)

/-! ## Session store (session_manager.py) and updater (session_updater.py) -/

lemma validate_py_parse_errors_of_valid (pO : ParseOutcome)
    (h : (validate_py_parse pO).is_valid = true) : (validate_py_parse pO).errors = [] := by
  cases pO <;> simp_all [validate_py_parse]

lemma validate_manim_structure_errors_of_valid (code : String)
    (h : (validate_manim_structure code).is_valid = true) :
    (validate_manim_structure code).errors = [] := by
  unfold validate_manim_structure at *
  split at h <;> simp_all
  split at h <;> simp_all

lemma dryRunBody_errors_of_valid (o : DryRunOutcome) (t : Nat) (v : ValidationResult)
    (h : dryRunBody o t = .ok v) (hv : v.is_valid = true) : v.errors = [] := by
  cases o with
  | completed rc out err =>
    by_cases hrc : rc = 0
    · simp only [dryRunBody, hrc] at h
      simp only [ne_eq, not_true_eq_false, if_neg, ite_false, Except.ok.injEq,
        reduceIte] at h
      subst h
      rfl
    · simp only [dryRunBody, if_pos, hrc, ne_eq, not_false_eq_true, ite_true,
        Except.ok.injEq] at h
      subst h
      simp at hv
  | timedOut =>
    simp only [dryRunBody, Except.ok.injEq] at h
    subst h
    simp at hv
  | cancelled => simp [dryRunBody] at h
  | spawnFailure m =>
    simp only [dryRunBody, Except.ok.injEq] at h
    subst h
    simp at hv

/-- **C3.** For every input script, every dry-run flag, and every
external outcome, if `validate_code` returns a verdict whose `is_valid`
is true then its `errors` list is empty (warnings may be non-empty). -/
theorem validate_code_valid_no_errors :
    ∀ (code : String) (dry_run : Bool) (pO : ParseOutcome) (dO : DryRunOutcome)
      (v : ValidationResult),
    (validate_code code dry_run pO dO).result = .ok v → v.is_valid = true →
    v.errors = [] := by
  intro code flag pO dO v h hv
  simp only [validate_code] at h
  split at h
  next hsyn =>
    simp only [Except.ok.injEq] at h
    subst h
    simp at hv
  next hsyn =>
    have hsynv : (validate_py_parse pO).is_valid = true := by
      revert hsyn; cases (validate_py_parse pO).is_valid <;> simp
    split at h
    next hstruct =>
      simp only [Except.ok.injEq] at h
      subst h
      simp at hv
    next hstruct =>
      have hstructv : (validate_manim_structure code).is_valid = true := by
        revert hstruct; cases (validate_manim_structure code).is_valid <;> simp
      split at h
      next hflag =>
        cases hE : (validate_manim_dry_run dO 600).result with
        | error e => rw [hE] at h; simp at h
        | ok drv =>
          have hdrv : dryRunBody dO 600 = .ok drv := hE
          rw [hE] at h
          split at h
          next e heq => exact absurd heq (by simp)
          next drv2 heq =>
            injection heq with heq2
            subst heq2
            split at h
            next hdv =>
              simp only [Except.ok.injEq] at h
              subst h
              simp at hv
            next hdv =>
              have hdvv : drv.is_valid = true := by
                revert hdv; cases drv.is_valid <;> simp
              simp only [Except.ok.injEq] at h
              subst h
              simp [validate_py_parse_errors_of_valid pO hsynv,
                    validate_manim_structure_errors_of_valid code hstructv,
                    dryRunBody_errors_of_valid dO 600 drv hdrv hdvv]
      next hflag =>
        simp only [Except.ok.injEq] at h
        subst h
        simp [validate_py_parse_errors_of_valid pO hsynv,
              validate_manim_structure_errors_of_valid code hstructv]

/-- Witness for C3 at a concrete input: the canonical valid script with a
successful parse and a zero-exit dry run. -/
theorem validate_code_valid_no_errors_witness :
    (validate_code "from manim import *\nclass GeneratedScene(Scene):\n    def construct(self):\n        pass"
        true .success (.completed 0 [] [])).result =
      .ok { is_valid := true, errors := [], warnings := [], error_details := none } ∧
    ({ is_valid := true, errors := [], warnings := [], error_details := none } :
      ValidationResult).errors = [] := by
  refine ⟨by rfl, ?_⟩
  exact validate_code_valid_no_errors
    "from manim import *\nclass GeneratedScene(Scene):\n    def construct(self):\n        pass"
    true .success (.completed 0 [] [])
    { is_valid := true, errors := [], warnings := [], error_details := none }
    (by rfl) (by rfl)

/-- **C4 (counterexample).** The script
`x = "class GeneratedScene def construct(self)"` is a single assignment
of a string literal: it declares no class at all (and hence no top-level
class named `GeneratedScene` with a `construct` method), yet the
structural-contract stage passes it, because `validate_manim_structure`
only tests substring containment.  This refutes the claim that a script
passes the stage exactly when it *declares* the required class and
method. -/
theorem structure_stage_substring_cx :
    (validate_manim_structure "x = \"class GeneratedScene def construct(self)\"").is_valid
      = true ∧
    (validate_manim_structure "x = \"class GeneratedScene def construct(self)\"").errors
      = [] := by
  constructor <;> rfl

/-- **C4 (amended).** The structural-contract stage passes exactly when
the script *contains the substrings* `"class GeneratedScene"` and
`"def construct(self)"` (no declaration is required); a script missing
the class substring gets exactly the class error, a script with the
class substring but missing the method substring gets exactly the
method error, and the stage never emits warnings.  In particular
`"x = 1"` is rejected with an error naming `GeneratedScene`. -/
theorem structure_stage_characterization :
    ∀ code : String,
    ((validate_manim_structure code).is_valid = true ↔
      (containsStr "class GeneratedScene" code = true ∧
       containsStr "def construct(self)" code = true)) ∧
    (validate_manim_structure code).warnings = [] ∧
    (containsStr "class GeneratedScene" code = false →
      (validate_manim_structure code).errors =
        ["Code must contain a 'GeneratedScene' class"]) ∧
    (containsStr "class GeneratedScene" code = true →
      containsStr "def construct(self)" code = false →
      (validate_manim_structure code).errors =
        ["GeneratedScene must have a 'construct' method"]) ∧
    ((validate_manim_structure "x = 1").is_valid = false ∧
     (validate_manim_structure "x = 1").errors =
       ["Code must contain a 'GeneratedScene' class"]) := by
  intro code
  refine ⟨?_, ?_, ?_, ?_, by rfl, by rfl⟩ <;>
    unfold validate_manim_structure <;>
    cases hc : containsStr "class GeneratedScene" code <;>
    cases hm : containsStr "def construct(self)" code <;>
    simp_all

/-- Witness for C4's amended theorem: instantiated on `"x = 1"`, whose
class-substring test is false, forcing rejection with the class error. -/
theorem structure_stage_characterization_witness :
    containsStr "class GeneratedScene" "x = 1" = false ∧
    (validate_manim_structure "x = 1").errors =
      ["Code must contain a 'GeneratedScene' class"] :=
  ⟨by decide, (structure_stage_characterization "x = 1").2.2.1 (by decide)⟩

/-- **C5.** For every script whose parse fails with a syntax error (the
parser reports a line number and message), every dry-run flag and every
dry-run outcome: `validate_code` returns a verdict with `is_valid` false
whose errors list is exactly the single entry carrying the offending
line number and the parser's message, and neither the
structural-contract stage nor the dry-run stage runs in that cycle. -/
theorem validate_code_parse_failure_single_error :
    ∀ (code : String) (dry_run : Bool) (lineno : Nat) (msg details : String)
      (dO : DryRunOutcome),
    (validate_code code dry_run (.parseErrorAt lineno msg details) dO).result =
      .ok { is_valid := false
            errors := ["Syntax Error at line " ++ toString lineno ++ ": " ++ msg]
            warnings := []
            error_details := some ("Syntax Validation:\n" ++ details) } ∧
    (validate_code code dry_run (.parseErrorAt lineno msg details) dO).ranStructure
      = false ∧
    (validate_code code dry_run (.parseErrorAt lineno msg details) dO).ranDryRun
      = false := by
  intro code flag lineno msg details dO
  refine ⟨?_, rfl, rfl⟩
  rfl

/-- **C7.** On every exit path of the dry-run stage — zero or non-zero
subprocess exit, spawn failure, timeout, and cancellation — the
`finally` block removes the scratch directory; and on timeout the
returned verdict is invalid with exactly the timeout-labelled error
message. -/
theorem validate_dry_run_cleanup :
    ∀ (o : DryRunOutcome) (t : Nat),
    (validate_manim_dry_run o t).cleanedUp = true ∧
    (o = .timedOut →
      (validate_manim_dry_run o t).result =
        .ok { is_valid := false
              errors := ["Validation timeout after " ++ toString t ++ " seconds"]
              warnings := []
              error_details := none }) := by
  intro o t
  exact ⟨rfl, by intro h; subst h; rfl⟩

/-- Witness for C7 at the timeout outcome with the source's default
timeout of 600 seconds. -/
theorem validate_dry_run_cleanup_witness :
    (validate_manim_dry_run .timedOut 600).cleanedUp = true ∧
    (validate_manim_dry_run .timedOut 600).result =
      .ok { is_valid := false
            errors := ["Validation timeout after 600 seconds"]
            warnings := []
            error_details := none } :=
  ⟨(validate_dry_run_cleanup .timedOut 600).1,
   (validate_dry_run_cleanup .timedOut 600).2 rfl⟩

/-- **C6 (counterexample).** On the canonical valid script with a
successful parse, a dry-run invocation that is cancelled makes
`validate_code` propagate the cancellation (`Except.error ()`) instead of
returning a failed verdict: `validate_manim_dry_run` builds a failed
verdict but re-raises `asyncio.CancelledError`
(code_validator.py line 243), so the exception reaches the caller of
`validate`, refuting "never raised out of validate as an exception". -/
theorem validate_code_cancellation_cx :
    (validate_code "from manim import *\nclass GeneratedScene(Scene):\n    def construct(self):\n        pass"
        true .success .cancelled).result = .error () ∧
    (validate_code "from manim import *\nclass GeneratedScene(Scene):\n    def construct(self):\n        pass"
        true .success .cancelled).ranDryRun = true := by
  constructor <;> rfl

/-- **C6 (amended).** Subprocess spawn failures and timeouts are
reported to the caller of `validate` as a failed verdict (is_valid false
with a corresponding error) and are not raised; cancellation, however,
builds a failed verdict internally but re-raises after cleanup, so a
cancelled dry run propagates the cancellation out of `validate_code`
whenever the dry-run stage actually runs. -/
theorem dry_run_failure_semantics :
    ∀ (m : String) (t : Nat) (code : String) (dry_run : Bool) (pO : ParseOutcome),
    (validate_manim_dry_run (.spawnFailure m) t).result =
      .ok { is_valid := false, errors := ["Validation error: " ++ m]
            warnings := [], error_details := some m } ∧
    (validate_manim_dry_run .timedOut t).result =
      .ok { is_valid := false
            errors := ["Validation timeout after " ++ toString t ++ " seconds"]
            warnings := [], error_details := none } ∧
    (validate_manim_dry_run .cancelled t).result = .error () ∧
    (validate_manim_dry_run .cancelled t).cleanedUp = true ∧
    ((validate_code code dry_run pO .cancelled).ranDryRun = true →
      (validate_code code dry_run pO .cancelled).result = .error ()) := by
  intro m t code flag pO
  refine ⟨rfl, rfl, rfl, rfl, ?_⟩
  intro h
  by_cases hsyn : (validate_py_parse pO).is_valid = false
  · simp [validate_code, hsyn] at h
  · by_cases hstruct : (validate_manim_structure code).is_valid = false
    · simp [validate_code, hsyn, hstruct] at h
    · by_cases hflag : flag = true
      · simp [validate_code, hsyn, hstruct, hflag, validate_manim_dry_run,
              dryRunBody, finallyCleanup]
      · simp [validate_code, hsyn, hstruct, hflag] at h

/-- Witness for C6's amended theorem: the cancellation propagation
discharged on the canonical valid script. -/
theorem dry_run_failure_semantics_witness :
    (validate_code "from manim import *\nclass GeneratedScene(Scene):\n    def construct(self):\n        pass\n"
        true .success .cancelled).result = .error () :=
  (dry_run_failure_semantics "m" 600
    "from manim import *\nclass GeneratedScene(Scene):\n    def construct(self):\n        pass\n"
    true .success).2.2.2.2 (by rfl)

/-! ## The refinement loop aborts: the claims about completed runs -/

/-- Every cycle of the workflow aborts at its validate node: the
`session_id` keyword argument of the call at iterative_workflow.py
line 195 does not bind against `validate_code`'s signature, so the node
raises `TypeError` and the exception propagates out of the graph. -/
lemma runWorkflowFuel_raises (gen : Nat → String) (val : Nat → ValidationResult)
    (fuel : Nat) (s : WorkflowState) :
    runWorkflowFuel gen val (fuel + 1) s =
      .error (.typeError
        "validate_code() got an unexpected keyword argument 'session_id'") := rfl

/-- **C1.** (code bug) The claimed bookkeeping — completed runs hold at
most `max_iterations` Iteration records, exactly `max_iterations` on the
exhausted path — is the spec's intent, but the code cannot produce any
completed run: for every oracle and every budget, the first validate
node's call `validate_code(code, dry_run=True, session_id=...)`
(iterative_workflow.py line 195) raises
`TypeError: ... unexpected keyword argument 'session_id'`, so the run
aborts with no Iteration records and no terminal Status. -/
theorem runWorkflow_aborts_type_error :
    ∀ (gen : Nat → String) (val : Nat → ValidationResult) (max_iterations : Nat),
    run_iterative_generation gen val max_iterations =
      .error (.typeError
        "validate_code() got an unexpected keyword argument 'session_id'") := by
  intro gen val m
  exact runWorkflowFuel_raises gen val m (initialWorkflowState m)

/-- **C2.** (code bug) The Decide step's ordering is as claimed in the
code of `decide_next_step` itself: a state whose verdict has
`is_valid = True` routes to `"complete"` — never to `"max_iterations"` —
even when the iteration counter has reached `max_iterations`.  But the
claimed run-level behaviour is unrealizable: no validation attempt ever
returns a verdict, because every run aborts at the first validate node
with the `session_id` TypeError (iterative_workflow.py line 195). -/
theorem decide_checks_valid_before_budget :
    ∀ (s : WorkflowState) (v : ValidationResult),
    s.validation_result = some v → v.is_valid = true →
    decide_next_step s = "complete" ∧
    decide_next_step s ≠ "max_iterations" ∧
    ∀ (gen : Nat → String) (val : Nat → ValidationResult) (max_iterations : Nat),
      run_iterative_generation gen val max_iterations =
        .error (.typeError
          "validate_code() got an unexpected keyword argument 'session_id'") := by
  intro s v hvr hv
  have hd : decide_next_step s = "complete" := by
    simp [decide_next_step, hvr, hv]
  refine ⟨hd, by rw [hd]; decide, ?_⟩
  intro gen val m
  exact runWorkflowFuel_raises gen val m (initialWorkflowState m)

/-- Witness for C2 at a concrete state: a valid verdict with the counter
already equal to the budget (5 = 5) still routes to `"complete"`. -/
theorem decide_checks_valid_before_budget_witness :
    decide_next_step
      { current_iteration := 5, max_iterations := 5, iterations_history := []
        status := .validating, generated_code := some ""
        validation_result := some { is_valid := true, errors := [], warnings := []
                                    error_details := none }
        error_message := none } = "complete" :=
  (decide_checks_valid_before_budget
    { current_iteration := 5, max_iterations := 5, iterations_history := []
      status := .validating, generated_code := some ""
      validation_result := some { is_valid := true, errors := [], warnings := []
                                  error_details := none }
      error_message := none }
    { is_valid := true, errors := [], warnings := [], error_details := none }
    rfl rfl).1

lemma splitLines_cons_newline (cs : List Char) :
    splitLines ('\n' :: cs) = [] :: splitLines cs := by
  simp [splitLines]

lemma splitLines_cons_other (c : Char) (cs : List Char) (hc : c ≠ '\n')
    (t' : List Char) (ts : List (List Char)) (hS : splitLines cs = t' :: ts) :
    splitLines (c :: cs) = (c :: t') :: ts := by
  simp only [splitLines, if_neg hc, hS]

lemma splitLines_ne_nil (s : List Char) : splitLines s ≠ [] := by
  induction s with
  | nil => simp [splitLines]
  | cons c cs ih =>
    simp only [splitLines]
    split
    · simp
    · split
      · simp
      · simp

lemma no_newline_mem_splitLines (s : List Char) :
    ∀ l ∈ splitLines s, '\n' ∉ l := by
  induction s with
  | nil => intro l hl; simp [splitLines] at hl; simp [hl]
  | cons c cs ih =>
    intro l hl
    by_cases hc : c = '\n'
    · subst hc
      rw [splitLines_cons_newline] at hl
      rcases List.mem_cons.mp hl with h1 | h1
      · simp [h1]
      · exact ih l h1
    · cases hS : splitLines cs with
      | nil => exact absurd hS (splitLines_ne_nil cs)
      | cons t' ts =>
        rw [splitLines_cons_other c cs hc t' ts hS] at hl
        rcases List.mem_cons.mp hl with h1 | h1
        · rw [h1]
          intro hmem
          rcases List.mem_cons.mp hmem with h2 | h2
          · exact hc h2.symm
          · exact ih t' (by rw [hS]; exact List.mem_cons_self _ _) h2
        · exact ih l (by rw [hS]; exact List.mem_cons_of_mem _ h1)

lemma splitLines_of_no_newline (l : List Char) (h : '\n' ∉ l) :
    splitLines l = [l] := by
  induction l with
  | nil => rfl
  | cons c cs ih =>
    have hc : c ≠ '\n' := fun hy => h (by simp [hy])
    have hcs : '\n' ∉ cs := fun hy => h (List.mem_cons_of_mem _ hy)
    exact splitLines_cons_other c cs hc cs [] (ih hcs)

lemma splitLines_append_cons_newline (l t : List Char) (h : '\n' ∉ l) :
    splitLines (l ++ '\n' :: t) = l :: splitLines t := by
  induction l with
  | nil => simp [splitLines_cons_newline]
  | cons c cs ih =>
    have hc : c ≠ '\n' := fun hy => h (by simp [hy])
    have hcs : '\n' ∉ cs := fun hy => h (List.mem_cons_of_mem _ hy)
    rw [List.cons_append]
    exact splitLines_cons_other c (cs ++ '\n' :: t) hc cs (splitLines t) (ih hcs)

lemma splitLines_joinLines (ls : List (List Char)) (hne : ls ≠ [])
    (h : ∀ l ∈ ls, '\n' ∉ l) : splitLines (joinLines ls) = ls := by
  induction ls with
  | nil => exact absurd rfl hne
  | cons l ls ih =>
    cases ls with
    | nil =>
      show splitLines (joinLines [l]) = [l]
      exact splitLines_of_no_newline l (h l (List.mem_cons_self _ _))
    | cons l2 ls2 =>
      show splitLines (l ++ '\n' :: joinLines (l2 :: ls2)) = l :: l2 :: ls2
      rw [splitLines_append_cons_newline l _ (h l (List.mem_cons_self _ _))]
      rw [ih (by simp) (fun x hx => h x (List.mem_cons_of_mem _ hx))]

/-- Append `x` to the last element of a list of lines (`[x]` if there are
no lines). -/
def appendLastLine (x : List Char) : List (List Char) → List (List Char)
  | [] => [x]
  | [l] => [l ++ x]
  | l :: ls => l :: appendLastLine x ls

lemma appendLastLine_concat (x l : List Char) (ls : List (List Char)) :
    appendLastLine x (ls ++ [l]) = ls ++ [l ++ x] := by
  induction ls with
  | nil => rfl
  | cons a ls ih =>
    cases ls with
    | nil => rfl
    | cons b ls2 =>
      simp only [List.cons_append] at ih ⊢
      rw [show appendLastLine x (a :: b :: (ls2 ++ [l])) =
        a :: appendLastLine x (b :: (ls2 ++ [l])) from rfl, ih]

lemma splitLines_concat_newline (t : List Char) :
    splitLines (t ++ ['\n']) = splitLines t ++ [[]] := by
  induction t with
  | nil => rfl
  | cons c cs ih =>
    by_cases hc : c = '\n'
    · subst hc
      rw [List.cons_append, splitLines_cons_newline, splitLines_cons_newline, ih,
        List.cons_append]
    · cases hS : splitLines cs with
      | nil => exact absurd hS (splitLines_ne_nil cs)
      | cons t' ts =>
        rw [List.cons_append,
          splitLines_cons_other c (cs ++ ['\n']) hc t' (ts ++ [[]])
            (by rw [ih, hS, List.cons_append]),
          splitLines_cons_other c cs hc t' ts hS, List.cons_append]

lemma splitLines_concat_other (t : List Char) (c : Char) (hc : c ≠ '\n') :
    splitLines (t ++ [c]) = appendLastLine [c] (splitLines t) := by
  induction t with
  | nil =>
    show splitLines [c] = [[c]]
    exact splitLines_of_no_newline [c] (fun hm => hc (List.mem_singleton.mp hm).symm)
  | cons x cs ih =>
    by_cases hx : x = '\n'
    · subst hx
      rw [List.cons_append, splitLines_cons_newline, splitLines_cons_newline, ih]
      cases hS : splitLines cs with
      | nil => exact absurd hS (splitLines_ne_nil cs)
      | cons t' ts => rfl
    · cases hS : splitLines cs with
      | nil => exact absurd hS (splitLines_ne_nil cs)
      | cons t' ts =>
        rw [splitLines_cons_other x cs hx t' ts hS, List.cons_append]
        cases ts with
        | nil =>
          rw [show appendLastLine [c] [x :: t'] = [(x :: t') ++ [c]] from rfl]
          rw [splitLines_cons_other x (cs ++ [c]) hx (t' ++ [c]) []
            (by rw [ih, hS]; rfl)]
          rfl
        | cons t2 ts2 =>
          rw [show appendLastLine [c] ((x :: t') :: t2 :: ts2) =
            (x :: t') :: appendLastLine [c] (t2 :: ts2) from rfl]
          rw [splitLines_cons_other x (cs ++ [c]) hx t' (appendLastLine [c] (t2 :: ts2))
            (by rw [ih, hS]; rfl)]

lemma splitLines_reverse (s : List Char) :
    splitLines s.reverse = ((splitLines s).map List.reverse).reverse := by
  induction s with
  | nil => rfl
  | cons c cs ih =>
    by_cases hc : c = '\n'
    · subst hc
      rw [List.reverse_cons, splitLines_concat_newline, ih, splitLines_cons_newline]
      simp
    · cases hS : splitLines cs with
      | nil => exact absurd hS (splitLines_ne_nil cs)
      | cons t' ts =>
        rw [List.reverse_cons, splitLines_concat_other cs.reverse c hc, ih,
          splitLines_cons_other c cs hc t' ts hS, hS]
        simp only [List.map_cons, List.reverse_cons]
        rw [appendLastLine_concat]

lemma pyStripChars_cons_space (c : Char) (l : List Char) (hc : isPySpace c = true) :
    pyStripChars (c :: l) = pyStripChars l := by
  unfold pyStripChars
  rw [List.dropWhile_cons_of_pos hc]

lemma pyStripChars_concat_space (l : List Char) (c : Char) (hc : isPySpace c = true) :
    pyStripChars (l ++ [c]) = pyStripChars l := by
  unfold pyStripChars
  by_cases hd : l.dropWhile isPySpace = []
  · have hall : ∀ x ∈ l, isPySpace x = true := by
      intro x hx
      exact List.dropWhile_eq_nil_iff.mp hd x hx
    have hall2 : (l ++ [c]).dropWhile isPySpace = [] := by
      rw [List.dropWhile_eq_nil_iff]
      intro x hx
      rcases List.mem_append.mp hx with h1 | h1
      · exact hall x h1
      · rw [List.mem_singleton.mp h1]; exact hc
    rw [hd, hall2]
  · rw [List.dropWhile_append]
    rw [if_neg (by simpa using hd)]
    rw [List.reverse_append, List.reverse_singleton]
    show ((c :: (l.dropWhile isPySpace).reverse).dropWhile isPySpace).reverse = _
    rw [List.dropWhile_cons_of_pos hc]

lemma head?_dropWhile_not (p : Char → Bool) :
    ∀ (l : List Char) (c : Char), (l.dropWhile p).head? = some c → p c = false := by
  intro l
  induction l with
  | nil => intro c h; simp [List.dropWhile] at h
  | cons a l ih =>
    intro c h
    by_cases ha : p a = true
    · rw [List.dropWhile_cons_of_pos ha] at h
      exact ih c h
    · rw [List.dropWhile_cons_of_neg ha] at h
      simp only [List.head?_cons, Option.some.injEq] at h
      subst h
      exact Bool.eq_false_iff.mpr ha

lemma getLast?_dropWhile_of_ne_nil (p : Char → Bool) :
    ∀ (l : List Char), l.dropWhile p ≠ [] →
      (l.dropWhile p).getLast? = l.getLast? := by
  intro l
  induction l with
  | nil => intro h; simp [List.dropWhile] at h
  | cons a l ih =>
    intro h
    by_cases ha : p a = true
    · rw [List.dropWhile_cons_of_pos ha] at h ⊢
      rw [ih h]
      have hl : l ≠ [] := by
        intro he; subst he; simp [List.dropWhile] at h
      cases l with
      | nil => exact absurd rfl hl
      | cons b t => rw [List.getLast?_cons_cons]
    · rw [List.dropWhile_cons_of_neg ha]

/-- A property of lines closed under removing a leading whitespace
character transfers from the lines of `s` to the lines of
`s.dropWhile isPySpace`. -/
lemma dropWhile_lines_pred (P : List Char → Prop)
    (hP : ∀ c l, isPySpace c = true → P (c :: l) → P l) :
    ∀ (s : List Char), (∀ l ∈ splitLines s, P l) →
      ∀ l ∈ splitLines (s.dropWhile isPySpace), P l := by
  intro s
  induction s with
  | nil => intro h l hl; exact h l hl
  | cons c cs ih =>
    intro h l hl
    by_cases hc : isPySpace c = true
    · rw [List.dropWhile_cons_of_pos hc] at hl
      refine ih ?_ l hl
      intro l' hl'
      by_cases hnl : c = '\n'
      · subst hnl
        exact h l' (by rw [splitLines_cons_newline]; exact List.mem_cons_of_mem _ hl')
      · cases hS : splitLines cs with
        | nil => exact absurd hS (splitLines_ne_nil cs)
        | cons t' ts =>
          rw [hS] at hl'
          rcases List.mem_cons.mp hl' with h1 | h1
          · subst h1
            exact hP c l' hc
              (h (c :: l')
                (by rw [splitLines_cons_other c cs hnl l' ts hS]
                    exact List.mem_cons_self _ _))
          · exact h l'
              (by rw [splitLines_cons_other c cs hnl t' ts hS]
                  exact List.mem_cons_of_mem _ h1)
    · rw [List.dropWhile_cons_of_neg hc] at hl
      exact h l hl

/-- A line is good when its stripped content is not a code-fence
marker. -/
def goodLine (l : List Char) : Prop := pyStripChars l ∉ fenceMarkers

lemma goodLine_nil : goodLine [] := by
  show pyStripChars [] ∉ fenceMarkers
  decide

/-- Python's final `.strip()` preserves "no line is a fence marker":
stripping only deletes whitespace characters at the two ends of the
string, which cannot turn any surviving line into a fence marker. -/
lemma goodLines_pyStripChars (u : List Char)
    (h : ∀ l ∈ splitLines u, goodLine l) :
    ∀ l ∈ splitLines (pyStripChars u), goodLine l := by
  have h1 : ∀ l ∈ splitLines (u.dropWhile isPySpace), goodLine l :=
    dropWhile_lines_pred goodLine
      (fun c l hc hg => by
        rw [goodLine, ← pyStripChars_cons_space c l hc]; exact hg)
      u h
  have h2 : ∀ l ∈ splitLines ((u.dropWhile isPySpace).reverse), goodLine l.reverse := by
    intro l hl
    rw [splitLines_reverse] at hl
    obtain ⟨a, ha, rfl⟩ := List.mem_map.mp (List.mem_reverse.mp hl)
    rw [List.reverse_reverse]
    exact h1 a ha
  have h3 : ∀ l ∈ splitLines (((u.dropWhile isPySpace).reverse).dropWhile isPySpace),
      goodLine l.reverse :=
    dropWhile_lines_pred (fun l => goodLine l.reverse)
      (fun c l hc hg => by
        have hg2 : goodLine (c :: l).reverse := hg
        rw [List.reverse_cons] at hg2
        show goodLine l.reverse
        rw [goodLine, ← pyStripChars_concat_space l.reverse c hc]
        exact hg2)
      _ h2
  intro l hl
  rw [show pyStripChars u =
    (((u.dropWhile isPySpace).reverse).dropWhile isPySpace).reverse from rfl] at hl
  rw [splitLines_reverse] at hl
  obtain ⟨a, ha, rfl⟩ := List.mem_map.mp (List.mem_reverse.mp hl)
  exact h3 a ha

lemma not_mem_of_contains_eq_false {x : List Char} :
    ∀ {ls : List (List Char)}, ls.contains x = false → x ∉ ls := by
  intro ls
  induction ls with
  | nil => intro _ hm; simp at hm
  | cons a t ih =>
    intro h hm
    rw [List.contains_cons] at h
    simp only [Bool.or_eq_false_iff, beq_eq_false_iff_ne, ne_eq] at h
    rcases List.mem_cons.mp hm with h1 | h1
    · exact h.1 h1
    · exact ih h.2 h1

/-- Every line surviving the fence-line filter of the cleanup is good. -/
lemma goodLines_filtered (g2 : List Char) :
    ∀ l ∈ splitLines (joinLines ((splitLines g2).filter
      (fun l => !(fenceMarkers.contains (pyStripChars l))))), goodLine l := by
  intro l hl
  by_cases hk : (splitLines g2).filter
      (fun l => !(fenceMarkers.contains (pyStripChars l))) = []
  · rw [hk] at hl
    have hle : l = [] := by
      simpa [joinLines, splitLines] using hl
    rw [hle]
    exact goodLine_nil
  · rw [splitLines_joinLines _ hk
      (fun x hx => no_newline_mem_splitLines g2 x (List.mem_filter.mp hx).1)] at hl
    have hfl := (List.mem_filter.mp hl).2
    simp only [Bool.not_eq_true'] at hfl
    exact not_mem_of_contains_eq_false hfl

lemma pyStripChars_head_not_space (u : List Char) :
    ∀ c : Char, (pyStripChars u).head? = some c → isPySpace c = false := by
  intro c hc
  rw [show pyStripChars u =
    (((u.dropWhile isPySpace).reverse).dropWhile isPySpace).reverse from rfl] at hc
  rw [List.head?_reverse] at hc
  have hne : (((u.dropWhile isPySpace).reverse).dropWhile isPySpace) ≠ [] := by
    intro he
    rw [he] at hc
    simp at hc
  rw [getLast?_dropWhile_of_ne_nil isPySpace _ hne, List.getLast?_reverse] at hc
  exact head?_dropWhile_not isPySpace _ c hc

lemma pyStripChars_getLast_not_space (u : List Char) :
    ∀ c : Char, (pyStripChars u).getLast? = some c → isPySpace c = false := by
  intro c hc
  rw [show pyStripChars u =
    (((u.dropWhile isPySpace).reverse).dropWhile isPySpace).reverse from rfl] at hc
  rw [List.getLast?_reverse] at hc
  exact head?_dropWhile_not isPySpace _ c hc

/-- **C10.** For every text returned by the generation call, the script
recovered by the Generate step's code-fence cleanup (`cleanupChars`,
used by `generate_code_node` through `cleanupCode`) contains no line
whose whitespace-stripped content is one of the fence markers
` ``` `, ` ```python `, ` ```py `, and the recovered script has no
leading or trailing whitespace (its first and last characters, when
they exist, are not whitespace). -/
theorem cleanup_code_no_fences :
    ∀ raw : List Char,
    (∀ l ∈ splitLines (cleanupChars raw), pyStripChars l ∉ fenceMarkers) ∧
    (∀ c : Char, (cleanupChars raw).head? = some c → isPySpace c = false) ∧
    (∀ c : Char, (cleanupChars raw).getLast? = some c → isPySpace c = false) := by
  intro raw
  simp only [cleanupChars]
  exact ⟨goodLines_pyStripChars _ (goodLines_filtered _),
    pyStripChars_head_not_space _, pyStripChars_getLast_not_space _⟩

/-- Witness for C10 on a concrete fenced generation response. -/
theorem cleanup_code_no_fences_witness :
    pyStripChars ("x = 1".data) ∉ fenceMarkers ∧ isPySpace 'x' = false :=
  ⟨(cleanup_code_no_fences ("```python\nx = 1\n```".data)).1 ("x = 1".data) (by decide),
   (cleanup_code_no_fences ("```python\nx = 1\n```".data)).2.1 'x' (by decide)⟩
